import Mathlib

/-!
Shallow embedding of `containernet-script.py`: a Containernet orchestration
script that builds a virtual topology (a backbone switch, one public
Docker host, and two Docker hosts each behind a NAT router), starts the
network, probes connectivity with pings, launches a `kitsune-p2p-proxy`
server in the background on the public host, reads its printed bind
address from the file `proxy-output`, runs `proxy-cli` against that
address from both LAN nodes, and tears the network down.

Pure string formatting (`'%d' % idx`, `'%s' % x`, `int(...)`) is embedded
as executable Lean functions; the topology-building methods become pure
functions on a `Topo` record; `run()` becomes a trace-producing
computation over an environment that supplies the result of each
`node.cmd` shell invocation (which may also raise a Python exception).
-/

namespace Containernet

/-- A Python exception, as far as this script can observe one: either a
`ValueError` from `int(...)` or an arbitrary exception raised by a
library call (here: by `node.cmd`). -/
inductive PyErr where
  | valueError : PyErr
  | raised : String → PyErr
deriving DecidableEq, Repr

/-- Embedding of Python `%d` substitution (first occurrence), used as
`'192.168.%d.1' % idx` etc. in the script.  Scans the format string and
replaces the first `%d` with the decimal rendering of the integer. -/
def fmtDAux (arg : List Char) : List Char → List Char
  | '%' :: 'd' :: rest => arg ++ rest
  | c :: rest => c :: fmtDAux arg rest
  | [] => []

/-- Python `fmt % n` for an integer argument and a single `%d` hole. -/
def pyFmtD (fmt : String) (n : Int) : String :=
  ⟨fmtDAux (toString n).data fmt.data⟩

/-- Embedding of Python `%s` substitution (first occurrence). -/
def fmtSAux (arg : List Char) : List Char → List Char
  | '%' :: 's' :: rest => arg ++ rest
  | c :: rest => c :: fmtSAux arg rest
  | [] => []

/-- Python `fmt % s` for a string argument and a single `%s` hole. -/
def pyFmtS (fmt : String) (s : String) : String :=
  ⟨fmtSAux s.data fmt.data⟩

/-- Embedding of Python `fmt % (a, b)` with two `%s` holes: the first
hole receives `a`, the remainder of the format is then scanned for the
second hole (the substituted text itself is not rescanned). -/
def fmtSSAux (a b : List Char) : List Char → List Char
  | '%' :: 's' :: rest => a ++ fmtSAux b rest
  | c :: rest => c :: fmtSSAux a b rest
  | [] => []

/-- Python `fmt % (a, b)` for two string arguments. -/
def pyFmtSS (fmt : String) (a b : String) : String :=
  ⟨fmtSSAux a.data b.data fmt.data⟩

/-- The whitespace characters stripped by Python's `str.strip()` (the
ASCII ones; only `\r`/`\n`/space can occur in this script's data). -/
def isPySpace (c : Char) : Bool :=
  c = ' ' || c = '\t' || c = '\n' || c = '\r' || c = '\x0b' || c = '\x0c'

/-- Embedding of Python `s.strip()`: drop leading and trailing
whitespace. -/
def pyStrip (s : String) : String :=
  ⟨((s.data.dropWhile isPySpace).reverse.dropWhile isPySpace).reverse⟩

/-- Parse a non-empty all-digit character list as a natural number. -/
def parseDigits (l : List Char) : Option Nat :=
  if l = [] then none
  else if l.all (fun c => c.isDigit) then
    some (l.foldl (fun a c => a * 10 + (c.toNat - 48)) 0)
  else none

/-- Embedding of Python `int(s)` on a string: surrounding whitespace is
ignored, an optional sign is allowed, the rest must be decimal digits;
anything else raises `ValueError`. -/
def pyInt (s : String) : Except PyErr Int :=
  match (pyStrip s).data with
  | '+' :: rest =>
    match parseDigits rest with
    | some n => .ok (n : Int)
    | none => .error .valueError
  | '-' :: rest =>
    match parseDigits rest with
    | some n => .ok (-(n : Int))
    | none => .error .valueError
  | l =>
    match parseDigits l with
    | some n => .ok (n : Int)
    | none => .error .valueError

/-- The bare address part of an IP given in CIDR form (`node.IP()` in
Mininet returns the address without the `/mask` suffix). -/
def ipOfCidr (s : String) : String :=
  ⟨s.data.takeWhile (fun c => c ≠ '/')⟩

/-- A Docker host declaration: `net.addDocker(name, ip, dimage, ...)`. -/
structure DockerDecl where
  name : String
  ip : String
  dimage : String
  defaultRoute : Option String := none
deriving DecidableEq, Repr

/-- Embeds `node.IP()` for a Docker host: its address without any mask. -/
def DockerDecl.IP (d : DockerDecl) : String := ipOfCidr d.ip

/-- A NAT router declaration: `net.addHost(name, cls=NAT, subnet, inetIntf,
localIntf)`. -/
structure NatDecl where
  name : String
  subnet : String
  inetIntf : String
  localIntf : String
deriving DecidableEq, Repr

/-- A link declaration: `net.addLink(n1, n2, intfName1=..., params1=...)`;
`params1ip` records the `'ip'` entry of `params1` when present. -/
structure LinkDecl where
  n1 : String
  n2 : String
  intfName1 : Option String := none
  params1ip : Option String := none
deriving DecidableEq, Repr

/-- The declared topology accumulated by the `Network` constructor. -/
structure Topo where
  switches : List String
  dockers : List DockerDecl
  nats : List NatDecl
  links : List LinkDecl
deriving DecidableEq, Repr

/-- Embeds `Network.addNatNode(self, idx)`: adds a NAT router `nat<idx>` with LAN
subnet `192.168.<idx>.0/24`, a LAN switch `s<idx>`, a WAN link from the
router to the backbone switch `s0`, a LAN link carrying the router's LAN
address `192.168.<idx>.1/24`, and a Docker LAN host `d<idx>` at
`192.168.<idx>.100/24` whose default route goes via the router.  Returns
the updated topology together with the LAN host. -/
def addNatNode (t : Topo) (idx : Int) : Topo × DockerDecl :=
  let inetIntf := pyFmtD "nat%d-eth0" idx
  let localIntf := pyFmtD "nat%d-eth1" idx
  let localIP := pyFmtD "192.168.%d.1" idx
  let localSubnet := pyFmtD "192.168.%d.0/24" idx
  let natParamsIp := pyFmtS "%s/24" localIP
  let nat : NatDecl :=
    { name := pyFmtD "nat%d" idx
      subnet := localSubnet
      inetIntf := inetIntf
      localIntf := localIntf }
  let switch := pyFmtD "s%d" idx
  let host : DockerDecl :=
    { name := pyFmtD "d%d" idx
      ip := pyFmtD "192.168.%d.100/24" idx
      dimage := "hc-containernet-base"
      defaultRoute := some (pyFmtS "via %s" localIP) }
  ({ t with
      nats := t.nats ++ [nat]
      switches := t.switches ++ [switch]
      dockers := t.dockers ++ [host]
      links := t.links ++
        [ { n1 := nat.name, n2 := "s0", intfName1 := some inetIntf }
        , { n1 := nat.name, n2 := switch, intfName1 := some localIntf
            params1ip := some natParamsIp }
        , { n1 := host.name, n2 := switch } ] },
   host)

/-- The public host declared by the `Network` constructor:
`net.addDocker('h0', ip='10.0.0.100', dimage='hc-containernet-base')`. -/
def h0Decl : DockerDecl :=
  { name := "h0", ip := "10.0.0.100", dimage := "hc-containernet-base" }

/-- Embeds `Network.__init__`: backbone switch `s0`, public host `h0` linked to
it, then two NAT LAN segments via `addNatNode(1)` and `addNatNode(2)`.
Returns the final topology and the two LAN hosts `d1`, `d2`. -/
def networkInit : Topo × DockerDecl × DockerDecl :=
  let t0 : Topo :=
    { switches := ["s0"]
      dockers := [h0Decl]
      nats := []
      links := [{ n1 := "s0", n2 := "h0" }] }
  let (t1, d1) := addNatNode t0 1
  let (t2, d2) := addNatNode t1 2
  (t2, d1, d2)

/-- The topology built by one run of the script. -/
def theTopo : Topo := networkInit.1

/-- The LAN host behind NAT 1 (`net.d1`). -/
def theD1 : DockerDecl := networkInit.2.1

/-- The LAN host behind NAT 2 (`net.d2`). -/
def theD2 : DockerDecl := networkInit.2.2

/-- An observable event of one script run. -/
inductive Event where
  | netStart : Event
  | info : String → Event
  | cmdCall : String → String → Event
  | sleep : Nat → Event
  | printExc : PyErr → Event
  | netStop : Event
deriving DecidableEq, Repr

/-- Result of a Python computation: a value or an uncaught exception. -/
inductive Res (α : Type) where
  | ok : α → Res α
  | exc : PyErr → Res α
deriving DecidableEq, Repr

/-- A step of the test script: its result together with the trace of
events it performed (events performed before an exception are kept). -/
abbrev M (α : Type) : Type := Res α × List Event

/-- Return a value, no events. -/
def pureM (a : α) : M α := (.ok a, [])

/-- Raise a Python exception. -/
def throwM (e : PyErr) : M α := (.exc e, [])

/-- Perform one event. -/
def emitM (ev : Event) : M Unit := (.ok (), [ev])

/-- Sequencing: if `m` raises, the continuation never runs and the trace
stops at `m`'s events. -/
def bindM (m : M α) (f : α → M β) : M β :=
  match m with
  | (.ok a, evs) => ((f a).1, evs ++ (f a).2)
  | (.exc e, evs) => (.exc e, evs)

/-- Sequencing that discards the first result. -/
def seqM (m : M Unit) (k : M β) : M β := bindM m (fun _ => k)

/-- The environment of a run: the outcome of each `node.cmd(cmd)` shell
invocation, keyed by node name and the exact command string sent
(`.error` models the call raising a Python exception). -/
def Env : Type := String → String → Except PyErr String

/-- Embeds `node.cmd(cmd)`: one shell invocation on an emulated node. -/
def runCmd (env : Env) (nodeName cmd : String) : M String :=
  match env nodeName cmd with
  | .ok out => (.ok out, [.cmdCall nodeName cmd])
  | .error e => (.exc e, [.cmdCall nodeName cmd])

/-- Embeds `execPrint(node, cmd)`: prints `'%s: %s' % (node.IP(), cmd)`, runs the
command, prints its output. -/
def execPrint (env : Env) (node : DockerDecl) (cmd : String) : M Unit :=
  seqM (emitM (.info (pyFmtSS "%s: %s" node.IP cmd)))
    (bindM (runCmd env node.name cmd) (fun out => emitM (.info out)))

/-- Embeds `exitCode(node, cmd)`: prints `'%s: %s' % (node.IP(), cmd)`, runs
`'%s > /dev/null 2>&1; echo $?' % cmd`, and parses the output with
`int(...)`. -/
def exitCode (env : Env) (node : DockerDecl) (cmd : String) : M Int :=
  seqM (emitM (.info (pyFmtSS "%s: %s" node.IP cmd)))
    (bindM (runCmd env node.name (pyFmtS "%s > /dev/null 2>&1; echo $?" cmd))
      (fun out =>
        match pyInt out with
        | .ok n => pureM n
        | .error e => throwM e))

/-- The literal command that launches the proxy server in the background
on the public host, with its stdout and stderr captured in the file
`proxy-output`. -/
def launchCmd : String :=
  "kitsune-p2p-proxy --bind-to kitsune-quic://10.0.0.100:0 > proxy-output 2>&1 &"

/-- The literal command that reads the captured server output back. -/
def catCmd : String := "cat proxy-output"

/-- Embeds `'ping -c1 %s' % target`. -/
def pingCmd (target : String) : String := pyFmtS "ping -c1 %s" target

/-- Embeds `'proxy-cli %s' % addr`. -/
def cliCmd (addr : String) : String := pyFmtS "proxy-cli %s" addr

/-- The connectivity-probe phase of `run()`: three `exitCode` pings
(d1→h0, d2→h0, d1→d2), each followed by a `GOT EXIT CODE` print. -/
def pingPhase (env : Env) : M Unit :=
  bindM (exitCode env theD1 (pingCmd h0Decl.IP)) (fun res1 =>
  seqM (emitM (.info (pyFmtD "GOT EXIT CODE: %d" res1)))
  (bindM (exitCode env theD2 (pingCmd h0Decl.IP)) (fun res2 =>
  seqM (emitM (.info (pyFmtD "GOT EXIT CODE: %d" res2)))
  (bindM (exitCode env theD1 (pingCmd theD2.IP)) (fun res3 =>
  emitM (.info (pyFmtD "GOT EXIT CODE: %d" res3)))))))

/-- The proxy phase of `run()`: launch the server in the background on
`h0`, `time.sleep(1)`, read `proxy-output`, strip it to get the address,
print it, then run `proxy-cli` from `d1` and from `d2`. -/
def proxyPhase (env : Env) : M Unit :=
  seqM (emitM (.info "Starting Proxy Server"))
  (bindM (runCmd env h0Decl.name launchCmd) (fun _ =>
  seqM (emitM (.sleep 1))
  (bindM (runCmd env h0Decl.name catCmd) (fun out =>
  seqM (emitM (.info (pyFmtS "PROXY ADDR: %s" (pyStrip out))))
  (seqM (execPrint env theD1 (cliCmd (pyStrip out)))
        (execPrint env theD2 (cliCmd (pyStrip out))))))))

/-- The body of the `try:` block of `run()`. -/
def tryBody (env : Env) : M Unit := seqM (pingPhase env) (proxyPhase env)

/-- Embeds `run()`: build and start the network, run the test sequence under a
catch-all that prints the exception information, then `net.stop()`. -/
def run (env : Env) : List Event :=
  Event.netStart ::
    (match tryBody env with
     | (.ok _, evs) => evs ++ [Event.netStop]
     | (.exc e, evs) => evs ++ [Event.printExc e, Event.netStop])

/-- Embeds `Network.stop`: the wrapper around the underlying `net.stop()` whose
outcome is `u`; any exception is swallowed (`except: pass`). -/
def networkStop (u : Except PyErr Unit) : Except PyErr Unit :=
  match u with
  | .ok _ => .ok ()
  | .error _ => .ok ()

/-- Embeds `Network.__del__`: just calls `self.stop()`. -/
def networkDel (u : Except PyErr Unit) : Except PyErr Unit := networkStop u

/-- The externally effectful actions of a trace: command calls, the
sleep, the catch-all error print and network start/stop; plain log
prints (`p(...)`) are dropped. -/
def isAction : Event → Bool
  | .info _ => false
  | _ => true

/-- Events an exception-free test-script step can produce: prints,
command calls and sleeps (never a `printExc` or `netStop`). -/
def isBodyEvent : Event → Bool
  | .info _ => true
  | .cmdCall _ _ => true
  | .sleep _ => true
  | _ => false

/-- Recognizes a `time.sleep` event. -/
def isSleepEvent : Event → Bool
  | .sleep _ => true
  | _ => false

/-- Number of `time.sleep` events in a trace. -/
def sleepCount (evs : List Event) : Nat := evs.countP isSleepEvent

/-- The dot-separated components of an IP address string. -/
def octSplit : List Char → List (List Char)
  | [] => [[]]
  | '.' :: rest => [] :: octSplit rest
  | c :: rest =>
    match octSplit rest with
    | [] => [[c]]
    | h :: t => (c :: h) :: t

/-- The octets of a dotted-decimal address, as strings. -/
def ipOctets (s : String) : List String :=
  (octSplit s.data).map (fun l => ⟨l⟩)

/-- Every literal IP address assigned in one script run: the Docker
hosts' addresses and the router LAN-side addresses carried on links. -/
def assignedIPs : List String :=
  (theTopo.dockers.map fun d => d.IP) ++
  (theTopo.links.filterMap fun l => l.params1ip.map ipOfCidr)

/-- The /24 prefixes (first three octets) of the backbone segment and of
each declared NAT LAN subnet. -/
def segmentPrefixes : List (List String) :=
  (ipOctets h0Decl.IP).take 3 ::
    theTopo.nats.map (fun n => (ipOctets (ipOfCidr n.subnet)).take 3)

/-- The first line of a piece of captured output (what the spec calls
"first line of captured stdout"). -/
def firstLine (s : String) : String :=
  ⟨s.data.takeWhile (fun c => c ≠ '\n')⟩

/-- A representative fully successful environment: both pings to the
public host exit 0, the LAN-to-LAN ping exits 1, the proxy server
launches silently and prints a one-line address into `proxy-output`. -/
def okEnv : Env := fun n c =>
  if n = "d1" ∧ c = "ping -c1 10.0.0.100 > /dev/null 2>&1; echo $?" then .ok "0\r\n"
  else if n = "d2" ∧ c = "ping -c1 10.0.0.100 > /dev/null 2>&1; echo $?" then .ok "0\r\n"
  else if n = "d1" ∧ c = "ping -c1 192.168.2.100 > /dev/null 2>&1; echo $?" then .ok "1\r\n"
  else if n = "h0" ∧ c = launchCmd then .ok ""
  else if n = "h0" ∧ c = catCmd then .ok "kitsune-proxy://h/10.0.0.100/p/5778/--\n"
  else .ok "ok"

/-- An environment whose shell outputs are not integers, so the first
`int(...)` call of the test sequence raises `ValueError`. -/
def badPingEnv : Env := fun _ _ => .ok "connect: Network is unreachable"

/-- Like `okEnv`, but the captured proxy-server output spans two lines. -/
def multiLineEnv : Env := fun n c =>
  if n = "h0" ∧ c = catCmd then .ok "addr-line\nsecond-line\n" else okEnv n c

/-- Like `okEnv`, but the backgrounded launch command returns an error
message as its output. -/
def okEnvLaunchNoise : Env := fun n c =>
  if n = "h0" ∧ c = launchCmd then .ok "sh: kitsune-p2p-proxy: not found"
  else okEnv n c

instance {ε α : Type} [DecidableEq ε] [DecidableEq α] :
    DecidableEq (Except ε α)
  | .ok a, .ok b =>
    if h : a = b then .isTrue (by rw [h])
    else .isFalse (by intro he; cases he; exact h rfl)
  | .ok _, .error _ => .isFalse (by intro he; cases he)
  | .error _, .ok _ => .isFalse (by intro he; cases he)
  | .error e, .error f =>
    if h : e = f then .isTrue (by rw [h])
    else .isFalse (by intro he; cases he; exact h rfl)

theorem theD1_name : theD1.name = "d1" := rfl

theorem theD2_name : theD2.name = "d2" := rfl

theorem h0Decl_name : h0Decl.name = "h0" := rfl

theorem theD1_addr : theD1.IP = "192.168.1.100" := rfl

theorem theD2_addr : theD2.IP = "192.168.2.100" := rfl

theorem h0Decl_addr : h0Decl.IP = "10.0.0.100" := rfl

theorem cliCmd_eq (a : String) : cliCmd a = "proxy-cli " ++ a := by
  simp only [cliCmd, pyFmtS, fmtSAux, List.append_nil]
  rfl

theorem exitShell_eq (c : String) :
    pyFmtS "%s > /dev/null 2>&1; echo $?" c =
      c ++ " > /dev/null 2>&1; echo $?" := rfl

theorem gotExitCode_eq (n : Int) :
    pyFmtD "GOT EXIT CODE: %d" n = "GOT EXIT CODE: " ++ toString n := by
  simp only [pyFmtD, fmtDAux, List.append_nil]
  rfl

theorem pingShell1 :
    pyFmtS "%s > /dev/null 2>&1; echo $?" (pingCmd h0Decl.IP) =
      "ping -c1 10.0.0.100 > /dev/null 2>&1; echo $?" := rfl

theorem pingShell3 :
    pyFmtS "%s > /dev/null 2>&1; echo $?" (pingCmd theD2.IP) =
      "ping -c1 192.168.2.100 > /dev/null 2>&1; echo $?" := rfl

theorem fmtSS_nodeCmd (a b : String) : pyFmtSS "%s: %s" a b = a ++ ": " ++ b := by
  obtain ⟨la⟩ := a
  obtain ⟨lb⟩ := b
  simp only [pyFmtSS, fmtSSAux, fmtSAux, List.append_nil]
  show String.mk (la ++ ':' :: ' ' :: lb) = String.mk ((la ++ [':', ' ']) ++ lb)
  rw [List.append_assoc]
  rfl

theorem proxyAddrInfo_eq (s : String) :
    pyFmtS "PROXY ADDR: %s" s = "PROXY ADDR: " ++ s := by
  simp only [pyFmtS, fmtSAux, List.append_nil]
  rfl

theorem bindM_ok {α β : Type} (a : α) (evs : List Event) (f : α → M β) :
    bindM (.ok a, evs) f = ((f a).1, evs ++ (f a).2) := rfl

theorem bindM_exc {α β : Type} (e : PyErr) (evs : List Event) (f : α → M β) :
    bindM (.exc e, evs) f = (.exc e, evs) := rfl

/-- All events of a computation's trace are ordinary body events. -/
def AllBody {α : Type} (m : M α) : Prop :=
  ∀ ev ∈ m.2, isBodyEvent ev = true

theorem allBody_bindM {α β : Type} {m : M α} {f : α → M β}
    (hm : AllBody m) (hf : ∀ a, AllBody (f a)) : AllBody (bindM m f) := by
  obtain ⟨r, evs⟩ := m
  cases r with
  | ok a =>
    intro ev hev
    rcases List.mem_append.mp hev with h | h
    · exact hm ev h
    · exact hf a ev h
  | exc e => exact hm

theorem allBody_emitM {ev : Event} (h : isBodyEvent ev = true) :
    AllBody (emitM ev) := by
  intro ev' hev'
  simp only [emitM, List.mem_singleton] at hev'
  subst hev'
  exact h

theorem allBody_emitInfo (s : String) : AllBody (emitM (.info s)) :=
  allBody_emitM rfl

theorem allBody_emitSleep (n : Nat) : AllBody (emitM (.sleep n)) :=
  allBody_emitM rfl

theorem allBody_runCmd (env : Env) (n c : String) :
    AllBody (runCmd env n c) := by
  unfold runCmd
  cases env n c <;>
    (intro ev hev; rw [List.mem_singleton] at hev; subst hev; rfl)

theorem allBody_pureM {α : Type} (a : α) : AllBody (pureM a) := by
  intro ev hev
  cases hev

theorem allBody_throwM {α : Type} (e : PyErr) : AllBody (throwM e : M α) := by
  intro ev hev
  cases hev

theorem allBody_exitCode (env : Env) (node : DockerDecl) (cmd : String) :
    AllBody (exitCode env node cmd) := by
  unfold exitCode seqM
  apply allBody_bindM (allBody_emitInfo _)
  intro _
  apply allBody_bindM (allBody_runCmd env node.name _)
  intro out
  cases pyInt out with
  | ok n => exact allBody_pureM n
  | error e => exact allBody_throwM e

theorem allBody_execPrint (env : Env) (node : DockerDecl) (cmd : String) :
    AllBody (execPrint env node cmd) := by
  unfold execPrint seqM
  apply allBody_bindM (allBody_emitInfo _)
  intro _
  apply allBody_bindM (allBody_runCmd env node.name _)
  intro _
  exact allBody_emitInfo _

theorem allBody_pingPhase (env : Env) : AllBody (pingPhase env) := by
  unfold pingPhase seqM
  apply allBody_bindM (allBody_exitCode env theD1 _)
  intro _
  apply allBody_bindM (allBody_emitInfo _)
  intro _
  apply allBody_bindM (allBody_exitCode env theD2 _)
  intro _
  apply allBody_bindM (allBody_emitInfo _)
  intro _
  apply allBody_bindM (allBody_exitCode env theD1 _)
  intro _
  exact allBody_emitInfo _

theorem allBody_proxyPhase (env : Env) : AllBody (proxyPhase env) := by
  unfold proxyPhase seqM
  apply allBody_bindM (allBody_emitInfo _)
  intro _
  apply allBody_bindM (allBody_runCmd env h0Decl.name _)
  intro _
  apply allBody_bindM (allBody_emitSleep _)
  intro _
  apply allBody_bindM (allBody_runCmd env h0Decl.name _)
  intro out
  apply allBody_bindM (allBody_emitInfo _)
  intro _
  apply allBody_bindM (allBody_execPrint env theD1 _)
  intro _
  exact allBody_execPrint env theD2 _

theorem allBody_tryBody (env : Env) : AllBody (tryBody env) := by
  unfold tryBody seqM
  apply allBody_bindM (allBody_pingPhase env)
  intro _
  exact allBody_proxyPhase env

theorem sleepCount_bindM_le {α β : Type} (m : M α) (f : α → M β)
    (k1 k2 : Nat) (hm : sleepCount m.2 ≤ k1)
    (hf : ∀ a, sleepCount (f a).2 ≤ k2) :
    sleepCount (bindM m f).2 ≤ k1 + k2 := by
  obtain ⟨r, evs⟩ := m
  cases r with
  | ok a =>
    show sleepCount (evs ++ (f a).2) ≤ k1 + k2
    rw [sleepCount, List.countP_append]
    exact Nat.add_le_add hm (hf a)
  | exc e => exact Nat.le_trans hm (Nat.le_add_right k1 k2)

theorem sleepCount_of_allBody {α : Type} {m : M α}
    (h : ∀ ev ∈ m.2, isSleepEvent ev = false) : sleepCount m.2 = 0 := by
  rw [sleepCount, List.countP_eq_zero]
  intro ev hev
  simp [h ev hev]

/-- No event of the computation's trace is a `time.sleep`. -/
def NoSleep {α : Type} (m : M α) : Prop :=
  ∀ ev ∈ m.2, isSleepEvent ev = false

theorem noSleep_bindM {α β : Type} {m : M α} {f : α → M β}
    (hm : NoSleep m) (hf : ∀ a, NoSleep (f a)) : NoSleep (bindM m f) := by
  obtain ⟨r, evs⟩ := m
  cases r with
  | ok a =>
    intro ev hev
    rcases List.mem_append.mp hev with h | h
    · exact hm ev h
    · exact hf a ev h
  | exc e => exact hm

theorem noSleep_emitInfo (s : String) : NoSleep (emitM (.info s)) := by
  intro ev hev
  simp only [emitM, List.mem_singleton] at hev
  subst hev
  rfl

theorem noSleep_runCmd (env : Env) (n c : String) :
    NoSleep (runCmd env n c) := by
  unfold runCmd
  cases env n c <;>
    (intro ev hev; simp only [List.mem_singleton] at hev; subst hev; rfl)

theorem noSleep_pureM {α : Type} (a : α) : NoSleep (pureM a) := by
  intro ev hev
  cases hev

theorem noSleep_throwM {α : Type} (e : PyErr) : NoSleep (throwM e : M α) := by
  intro ev hev
  cases hev

theorem noSleep_exitCode (env : Env) (node : DockerDecl) (cmd : String) :
    NoSleep (exitCode env node cmd) := by
  unfold exitCode seqM
  apply noSleep_bindM (noSleep_emitInfo _)
  intro _
  apply noSleep_bindM (noSleep_runCmd env node.name _)
  intro out
  cases pyInt out with
  | ok n => exact noSleep_pureM n
  | error e => exact noSleep_throwM e

theorem noSleep_execPrint (env : Env) (node : DockerDecl) (cmd : String) :
    NoSleep (execPrint env node cmd) := by
  unfold execPrint seqM
  apply noSleep_bindM (noSleep_emitInfo _)
  intro _
  apply noSleep_bindM (noSleep_runCmd env node.name _)
  intro _
  exact noSleep_emitInfo _

theorem noSleep_pingPhase (env : Env) : NoSleep (pingPhase env) := by
  unfold pingPhase seqM
  apply noSleep_bindM (noSleep_exitCode env theD1 _)
  intro _
  apply noSleep_bindM (noSleep_emitInfo _)
  intro _
  apply noSleep_bindM (noSleep_exitCode env theD2 _)
  intro _
  apply noSleep_bindM (noSleep_emitInfo _)
  intro _
  apply noSleep_bindM (noSleep_exitCode env theD1 _)
  intro _
  exact noSleep_emitInfo _

theorem sleepCount_of_noSleep {α : Type} {m : M α} (h : NoSleep m) :
    sleepCount m.2 = 0 := sleepCount_of_allBody h

theorem sleepCount_proxyPhase (env : Env) :
    sleepCount (proxyPhase env).2 ≤ 1 := by
  unfold proxyPhase seqM
  have h1 := sleepCount_of_noSleep (noSleep_emitInfo "Starting Proxy Server")
  have hrest : ∀ a : Unit,
      sleepCount
        ((bindM (runCmd env h0Decl.name launchCmd) (fun _ =>
          bindM (emitM (.sleep 1)) (fun _ =>
          bindM (runCmd env h0Decl.name catCmd) (fun out =>
          bindM (emitM (.info (pyFmtS "PROXY ADDR: %s" (pyStrip out)))) (fun _ =>
          bindM (execPrint env theD1 (cliCmd (pyStrip out))) (fun _ =>
          execPrint env theD2 (cliCmd (pyStrip out)))))))).2) ≤ 1 := by
    intro _
    have h2 := sleepCount_of_noSleep (noSleep_runCmd env h0Decl.name launchCmd)
    have hinner : ∀ a : String,
        sleepCount
          ((bindM (emitM (.sleep 1)) (fun _ =>
            bindM (runCmd env h0Decl.name catCmd) (fun out =>
            bindM (emitM (.info (pyFmtS "PROXY ADDR: %s" (pyStrip out)))) (fun _ =>
            bindM (execPrint env theD1 (cliCmd (pyStrip out))) (fun _ =>
            execPrint env theD2 (cliCmd (pyStrip out))))))).2) ≤ 1 := by
      intro _
      have h3 : sleepCount (emitM (Event.sleep 1)).2 ≤ 1 := by
        simp [sleepCount, emitM, List.countP_cons, isSleepEvent]
      have h4 : ∀ a : Unit,
          sleepCount
            ((bindM (runCmd env h0Decl.name catCmd) (fun out =>
              bindM (emitM (.info (pyFmtS "PROXY ADDR: %s" (pyStrip out)))) (fun _ =>
              bindM (execPrint env theD1 (cliCmd (pyStrip out))) (fun _ =>
              execPrint env theD2 (cliCmd (pyStrip out)))))).2) ≤ 0 := by
        intro _
        have h5 := sleepCount_of_noSleep (noSleep_runCmd env h0Decl.name catCmd)
        have h6 : ∀ out : String,
            sleepCount
              ((bindM (emitM (.info (pyFmtS "PROXY ADDR: %s" (pyStrip out)))) (fun _ =>
                bindM (execPrint env theD1 (cliCmd (pyStrip out))) (fun _ =>
                execPrint env theD2 (cliCmd (pyStrip out))))).2) ≤ 0 := by
          intro out
          have h7 := sleepCount_of_noSleep (noSleep_emitInfo (pyFmtS "PROXY ADDR: %s" (pyStrip out)))
          have h8 : ∀ a : Unit,
              sleepCount
                ((bindM (execPrint env theD1 (cliCmd (pyStrip out))) (fun _ =>
                  execPrint env theD2 (cliCmd (pyStrip out)))).2) ≤ 0 := by
            intro _
            have h9 := sleepCount_of_noSleep (noSleep_execPrint env theD1 (cliCmd (pyStrip out)))
            have h10 := sleepCount_of_noSleep (noSleep_execPrint env theD2 (cliCmd (pyStrip out)))
            have := sleepCount_bindM_le (execPrint env theD1 (cliCmd (pyStrip out))) _ 0 0
              (Nat.le_of_eq h9) (fun _ => Nat.le_of_eq h10)
            simpa using this
          have := sleepCount_bindM_le (emitM (.info (pyFmtS "PROXY ADDR: %s" (pyStrip out)))) _ 0 0
            (Nat.le_of_eq h7) h8
          simpa using this
        have := sleepCount_bindM_le (runCmd env h0Decl.name catCmd) _ 0 0
          (Nat.le_of_eq h5) h6
        simpa using this
      have := sleepCount_bindM_le (emitM (Event.sleep 1)) _ 1 0 h3 h4
      simpa using this
    have := sleepCount_bindM_le (runCmd env h0Decl.name launchCmd) _ 0 1
      (Nat.le_of_eq h2) hinner
    simpa using this
  have := sleepCount_bindM_le (emitM (.info "Starting Proxy Server")) _ 0 1
    (Nat.le_of_eq h1) hrest
  simpa using this

theorem sleepCount_tryBody (env : Env) : sleepCount (tryBody env).2 ≤ 1 := by
  unfold tryBody seqM
  have h1 := sleepCount_of_noSleep (noSleep_pingPhase env)
  have := sleepCount_bindM_le (pingPhase env) _ 0 1 (Nat.le_of_eq h1)
    (fun _ => sleepCount_proxyPhase env)
  simpa using this

theorem sleepCount_run (env : Env) : sleepCount (run env) ≤ 1 := by
  have htb := sleepCount_tryBody env
  unfold run
  rcases h : tryBody env with ⟨r, evs⟩
  rw [h] at htb
  cases r with
  | ok a =>
    simp [sleepCount, isSleepEvent, List.countP_cons, List.countP_append] at htb ⊢
    omega
  | exc e =>
    simp [sleepCount, isSleepEvent, List.countP_cons, List.countP_append] at htb ⊢
    omega

/-- Helper: under successful pings with integer outputs, the ping phase
of `run()` evaluates to this exact trace. -/
theorem pingPhase_eval (env : Env) (s1 s2 s3 : String) (n1 n2 n3 : Int)
    (h1 : env "d1" "ping -c1 10.0.0.100 > /dev/null 2>&1; echo $?" = .ok s1)
    (hp1 : pyInt s1 = .ok n1)
    (h2 : env "d2" "ping -c1 10.0.0.100 > /dev/null 2>&1; echo $?" = .ok s2)
    (hp2 : pyInt s2 = .ok n2)
    (h3 : env "d1" "ping -c1 192.168.2.100 > /dev/null 2>&1; echo $?" = .ok s3)
    (hp3 : pyInt s3 = .ok n3) :
    pingPhase env = (.ok (),
      [Event.info "192.168.1.100: ping -c1 10.0.0.100",
       Event.cmdCall "d1" "ping -c1 10.0.0.100 > /dev/null 2>&1; echo $?",
       Event.info ("GOT EXIT CODE: " ++ toString n1),
       Event.info "192.168.2.100: ping -c1 10.0.0.100",
       Event.cmdCall "d2" "ping -c1 10.0.0.100 > /dev/null 2>&1; echo $?",
       Event.info ("GOT EXIT CODE: " ++ toString n2),
       Event.info "192.168.1.100: ping -c1 192.168.2.100",
       Event.cmdCall "d1" "ping -c1 192.168.2.100 > /dev/null 2>&1; echo $?",
       Event.info ("GOT EXIT CODE: " ++ toString n3)]) := by
  simp only [pingPhase, exitCode, seqM, runCmd, bindM, emitM, pureM,
    theD1_name, theD2_name, pingShell1, pingShell3, gotExitCode_eq,
    fmtSS_nodeCmd, h1, hp1, h2, hp2, h3, hp3]
  rfl

/-- Helper: under a fully successful environment, `run()` evaluates to
this exact trace. -/
theorem run_eval_ok (env : Env)
    (s1 s2 s3 : String) (n1 n2 n3 : Int)
    (launchOut catOut cliOut1 cliOut2 : String)
    (h1 : env "d1" "ping -c1 10.0.0.100 > /dev/null 2>&1; echo $?" = .ok s1)
    (hp1 : pyInt s1 = .ok n1)
    (h2 : env "d2" "ping -c1 10.0.0.100 > /dev/null 2>&1; echo $?" = .ok s2)
    (hp2 : pyInt s2 = .ok n2)
    (h3 : env "d1" "ping -c1 192.168.2.100 > /dev/null 2>&1; echo $?" = .ok s3)
    (hp3 : pyInt s3 = .ok n3)
    (h4 : env "h0" launchCmd = .ok launchOut)
    (h5 : env "h0" catCmd = .ok catOut)
    (h6 : env "d1" (cliCmd (pyStrip catOut)) = .ok cliOut1)
    (h7 : env "d2" (cliCmd (pyStrip catOut)) = .ok cliOut2) :
    run env =
      [Event.netStart,
       Event.info "192.168.1.100: ping -c1 10.0.0.100",
       Event.cmdCall "d1" "ping -c1 10.0.0.100 > /dev/null 2>&1; echo $?",
       Event.info ("GOT EXIT CODE: " ++ toString n1),
       Event.info "192.168.2.100: ping -c1 10.0.0.100",
       Event.cmdCall "d2" "ping -c1 10.0.0.100 > /dev/null 2>&1; echo $?",
       Event.info ("GOT EXIT CODE: " ++ toString n2),
       Event.info "192.168.1.100: ping -c1 192.168.2.100",
       Event.cmdCall "d1" "ping -c1 192.168.2.100 > /dev/null 2>&1; echo $?",
       Event.info ("GOT EXIT CODE: " ++ toString n3),
       Event.info "Starting Proxy Server",
       Event.cmdCall "h0" launchCmd,
       Event.sleep 1,
       Event.cmdCall "h0" catCmd,
       Event.info ("PROXY ADDR: " ++ pyStrip catOut),
       Event.info ("192.168.1.100: " ++ cliCmd (pyStrip catOut)),
       Event.cmdCall "d1" (cliCmd (pyStrip catOut)),
       Event.info cliOut1,
       Event.info ("192.168.2.100: " ++ cliCmd (pyStrip catOut)),
       Event.cmdCall "d2" (cliCmd (pyStrip catOut)),
       Event.info cliOut2,
       Event.netStop] := by
  simp only [run, tryBody, seqM, pingPhase, proxyPhase, exitCode, execPrint,
    runCmd, bindM, pureM, emitM, theD1_name, theD2_name, h0Decl_name,
    pingShell1, pingShell3, fmtSS_nodeCmd, gotExitCode_eq, proxyAddrInfo_eq,
    h1, hp1, h2, hp2, h3, hp3, h4, h5, h6, h7]
  rfl

/-- C5: `Network.stop` never raises: whatever the underlying `net.stop()`
does (outcome `u`), the wrapper returns normally, and so does the
destructor `__del__`, which just calls `stop`; this holds for every call,
so also for repeated ones. -/
theorem networkStop_never_raises :
    ∀ u : Except PyErr Unit, networkStop u = .ok () ∧ networkDel u = .ok () := by
  intro u
  cases u <;> exact ⟨rfl, rfl⟩

/-- C7: for every index `idx` passed to `addNatNode`, the NAT declaration
uses subnet `192.168.idx.0/24`, the LAN link carries the router's
LAN-side address `192.168.idx.1/24`, the LAN host is declared at
`192.168.idx.100/24` (so its address is `.100`, as the concrete
`theD1`/`theD2` instances show), and the host's default route points at
the router address `192.168.idx.1`. -/
theorem addNatNode_addressing (t : Topo) (idx : Int) :
    ((addNatNode t idx).1.nats = t.nats ++
      [{ name := "nat" ++ toString idx
         subnet := "192.168." ++ toString idx ++ ".0/24"
         inetIntf := "nat" ++ toString idx ++ "-eth0"
         localIntf := "nat" ++ toString idx ++ "-eth1" }])
    ∧ ((addNatNode t idx).1.links = t.links ++
      [{ n1 := "nat" ++ toString idx, n2 := "s0"
         intfName1 := some ("nat" ++ toString idx ++ "-eth0")
         params1ip := none },
       { n1 := "nat" ++ toString idx, n2 := "s" ++ toString idx
         intfName1 := some ("nat" ++ toString idx ++ "-eth1")
         params1ip := some ("192.168." ++ toString idx ++ ".1" ++ "/24") },
       { n1 := "d" ++ toString idx, n2 := "s" ++ toString idx
         intfName1 := none, params1ip := none }])
    ∧ ((addNatNode t idx).2 =
      { name := "d" ++ toString idx
        ip := "192.168." ++ toString idx ++ ".100/24"
        dimage := "hc-containernet-base"
        defaultRoute := some ("via 192.168." ++ toString idx ++ ".1") })
    ∧ theD1.IP = "192.168.1.100" ∧ theD2.IP = "192.168.2.100" := by
  simp only [addNatNode, pyFmtD, pyFmtS, fmtDAux, fmtSAux, List.append_nil]
  exact ⟨rfl, rfl, rfl, rfl, rfl⟩

/-- C8: the public host `h0` is declared at address `10.0.0.100` (an
address on the `10.0.0.0/24` backbone segment) and the constructor links
it to the backbone switch `s0`. -/
theorem publicHost_on_backbone :
    h0Decl ∈ theTopo.dockers ∧
    h0Decl.ip = "10.0.0.100" ∧
    ipOctets h0Decl.IP = ["10", "0", "0", "100"] ∧
    ({ n1 := "s0", n2 := "h0", intfName1 := none, params1ip := none } :
      LinkDecl) ∈ theTopo.links ∧
    "s0" ∈ theTopo.switches := by
  decide

/-- C9: within one script run, the literal addresses assigned by the
constructor and by `addNatNode(1)`/`addNatNode(2)` are pairwise distinct,
and the backbone `/24` prefix and the two NAT LAN `/24` prefixes are
pairwise disjoint. -/
theorem addresses_no_collision :
    assignedIPs =
      ["10.0.0.100", "192.168.1.100", "192.168.2.100",
       "192.168.1.1", "192.168.2.1"] ∧
    assignedIPs.Nodup ∧
    segmentPrefixes =
      [["10", "0", "0"], ["192", "168", "1"], ["192", "168", "2"]] ∧
    segmentPrefixes.Nodup := by
  decide

/-- C1: when every step succeeds, `run()` performs exactly this linear
action sequence, with no step repeated or reordered: network start, the
three connectivity pings (d1→h0, d2→h0, d1→d2), the background proxy
launch on h0, the single sleep, the read of `proxy-output` on h0, the
proxy client run from d1 and from d2, and the network stop. -/
theorem run_control_flow_linear (env : Env)
    (s1 s2 s3 : String) (n1 n2 n3 : Int)
    (launchOut catOut cliOut1 cliOut2 : String)
    (h1 : env "d1" "ping -c1 10.0.0.100 > /dev/null 2>&1; echo $?" = .ok s1)
    (hp1 : pyInt s1 = .ok n1)
    (h2 : env "d2" "ping -c1 10.0.0.100 > /dev/null 2>&1; echo $?" = .ok s2)
    (hp2 : pyInt s2 = .ok n2)
    (h3 : env "d1" "ping -c1 192.168.2.100 > /dev/null 2>&1; echo $?" = .ok s3)
    (hp3 : pyInt s3 = .ok n3)
    (h4 : env "h0" launchCmd = .ok launchOut)
    (h5 : env "h0" catCmd = .ok catOut)
    (h6 : env "d1" (cliCmd (pyStrip catOut)) = .ok cliOut1)
    (h7 : env "d2" (cliCmd (pyStrip catOut)) = .ok cliOut2) :
    (run env).filter isAction =
      [Event.netStart,
       Event.cmdCall "d1" "ping -c1 10.0.0.100 > /dev/null 2>&1; echo $?",
       Event.cmdCall "d2" "ping -c1 10.0.0.100 > /dev/null 2>&1; echo $?",
       Event.cmdCall "d1" "ping -c1 192.168.2.100 > /dev/null 2>&1; echo $?",
       Event.cmdCall "h0" launchCmd,
       Event.sleep 1,
       Event.cmdCall "h0" catCmd,
       Event.cmdCall "d1" (cliCmd (pyStrip catOut)),
       Event.cmdCall "d2" (cliCmd (pyStrip catOut)),
       Event.netStop] := by
  simp only [run, tryBody, seqM, pingPhase, proxyPhase, exitCode, execPrint,
    runCmd, bindM, pureM, emitM, theD1_name, theD2_name, h0Decl_name,
    pingShell1, pingShell3, h1, hp1, h2, hp2, h3, hp3, h4, h5, h6, h7]
  simp [isAction, List.filter_append]

/-- Witness for C1 at the concrete all-success environment `okEnv`. -/
theorem run_control_flow_linear_witness :
    (run okEnv).filter isAction =
      [Event.netStart,
       Event.cmdCall "d1" "ping -c1 10.0.0.100 > /dev/null 2>&1; echo $?",
       Event.cmdCall "d2" "ping -c1 10.0.0.100 > /dev/null 2>&1; echo $?",
       Event.cmdCall "d1" "ping -c1 192.168.2.100 > /dev/null 2>&1; echo $?",
       Event.cmdCall "h0" launchCmd,
       Event.sleep 1,
       Event.cmdCall "h0" catCmd,
       Event.cmdCall "d1"
         (cliCmd (pyStrip "kitsune-proxy://h/10.0.0.100/p/5778/--\n")),
       Event.cmdCall "d2"
         (cliCmd (pyStrip "kitsune-proxy://h/10.0.0.100/p/5778/--\n")),
       Event.netStop] :=
  run_control_flow_linear okEnv "0\r\n" "0\r\n" "1\r\n" 0 0 1
    "" "kitsune-proxy://h/10.0.0.100/p/5778/--\n" "ok" "ok"
    (by decide) (by decide) (by decide) (by decide) (by decide) (by decide)
    (by decide) (by decide) (by decide) (by decide)

/-- C2: the `exitCode` helper obtains a command's exit status by sending
`cmd + ' > /dev/null 2>&1; echo $?'` (the command's own output redirected
away), parsing the echoed status with `int(...)`, and `run()` surfaces
the three resulting integers in its `GOT EXIT CODE` prints for the three
connectivity test steps. -/
theorem exitCode_parses_plain_integer :
    (∀ (env : Env) (node : DockerDecl) (cmd out : String) (n : Int),
      env node.name (cmd ++ " > /dev/null 2>&1; echo $?") = .ok out →
      pyInt out = .ok n →
      exitCode env node cmd =
        (.ok n,
         [Event.info (node.IP ++ ": " ++ cmd),
          Event.cmdCall node.name (cmd ++ " > /dev/null 2>&1; echo $?")])) ∧
    (∀ (env : Env) (s1 s2 s3 : String) (n1 n2 n3 : Int),
      env "d1" "ping -c1 10.0.0.100 > /dev/null 2>&1; echo $?" = .ok s1 →
      pyInt s1 = .ok n1 →
      env "d2" "ping -c1 10.0.0.100 > /dev/null 2>&1; echo $?" = .ok s2 →
      pyInt s2 = .ok n2 →
      env "d1" "ping -c1 192.168.2.100 > /dev/null 2>&1; echo $?" = .ok s3 →
      pyInt s3 = .ok n3 →
      Event.info ("GOT EXIT CODE: " ++ toString n1) ∈ run env ∧
      Event.info ("GOT EXIT CODE: " ++ toString n2) ∈ run env ∧
      Event.info ("GOT EXIT CODE: " ++ toString n3) ∈ run env) := by
  constructor
  · intro env node cmd out n hc hp
    simp only [exitCode, seqM, runCmd, bindM, emitM, pureM, exitShell_eq,
      fmtSS_nodeCmd, hc, hp]
    rfl
  · intro env s1 s2 s3 n1 n2 n3 h1 hp1 h2 hp2 h3 hp3
    have hping := pingPhase_eval env s1 s2 s3 n1 n2 n3 h1 hp1 h2 hp2 h3 hp3
    unfold run tryBody seqM
    rw [hping]
    simp only [bindM]
    rcases hpp : proxyPhase env with ⟨r, evs2⟩
    cases r <;> simp

/-- Witness for C2 at `okEnv`: the first ping's exit code 0 and the three
`GOT EXIT CODE` prints (0, 0, 1). -/
theorem exitCode_parses_plain_integer_witness :
    exitCode okEnv theD1 "ping -c1 10.0.0.100" =
      (.ok 0,
       [Event.info (theD1.IP ++ ": " ++ "ping -c1 10.0.0.100"),
        Event.cmdCall theD1.name
          ("ping -c1 10.0.0.100" ++ " > /dev/null 2>&1; echo $?")]) ∧
    (Event.info ("GOT EXIT CODE: " ++ toString (0 : Int)) ∈ run okEnv ∧
     Event.info ("GOT EXIT CODE: " ++ toString (0 : Int)) ∈ run okEnv ∧
     Event.info ("GOT EXIT CODE: " ++ toString (1 : Int)) ∈ run okEnv) :=
  ⟨exitCode_parses_plain_integer.1 okEnv theD1 "ping -c1 10.0.0.100"
      "0\r\n" 0 (by decide) (by decide),
   exitCode_parses_plain_integer.2 okEnv "0\r\n" "0\r\n" "1\r\n" 0 0 1
      (by decide) (by decide) (by decide) (by decide) (by decide) (by decide)⟩

/-- C3 counterexample: when the captured server output spans two lines,
the address handed to the proxy client is the whole stripped file
content, not the first line: with `proxy-output` holding
`"addr-line\nsecond-line\n"`, the client is invoked with
`"addr-line\nsecond-line"` and never with the first line `"addr-line"`. -/
theorem proxy_addr_not_first_line :
    Event.cmdCall "d1" (cliCmd "addr-line\nsecond-line") ∈ run multiLineEnv ∧
    Event.cmdCall "d1" (cliCmd "addr-line") ∉ run multiLineEnv ∧
    firstLine "addr-line\nsecond-line\n" = "addr-line" ∧
    pyStrip "addr-line\nsecond-line\n" = "addr-line\nsecond-line" := by
  decide

/-- C3 (amended): the server address handed to both proxy client steps
is obtained by running `cat proxy-output` on the public host `h0`, and
equals the entire captured output with surrounding whitespace stripped
(`.strip()`), which coincides with the first line only when the capture
is a single line. -/
theorem proxy_addr_whole_stripped (env : Env)
    (s1 s2 s3 : String) (n1 n2 n3 : Int)
    (launchOut catOut cliOut1 cliOut2 : String)
    (h1 : env "d1" "ping -c1 10.0.0.100 > /dev/null 2>&1; echo $?" = .ok s1)
    (hp1 : pyInt s1 = .ok n1)
    (h2 : env "d2" "ping -c1 10.0.0.100 > /dev/null 2>&1; echo $?" = .ok s2)
    (hp2 : pyInt s2 = .ok n2)
    (h3 : env "d1" "ping -c1 192.168.2.100 > /dev/null 2>&1; echo $?" = .ok s3)
    (hp3 : pyInt s3 = .ok n3)
    (h4 : env "h0" launchCmd = .ok launchOut)
    (h5 : env "h0" catCmd = .ok catOut)
    (h6 : env "d1" (cliCmd (pyStrip catOut)) = .ok cliOut1)
    (h7 : env "d2" (cliCmd (pyStrip catOut)) = .ok cliOut2) :
    Event.cmdCall "h0" catCmd ∈ run env ∧
    Event.cmdCall "d1" (cliCmd (pyStrip catOut)) ∈ run env ∧
    Event.cmdCall "d2" (cliCmd (pyStrip catOut)) ∈ run env := by
  rw [run_eval_ok env s1 s2 s3 n1 n2 n3 launchOut catOut cliOut1 cliOut2
    h1 hp1 h2 hp2 h3 hp3 h4 h5 h6 h7]
  refine ⟨?_, ?_, ?_⟩ <;> simp

/-- Witness for the amended C3 at `okEnv`. -/
theorem proxy_addr_whole_stripped_witness :
    Event.cmdCall "h0" catCmd ∈ run okEnv ∧
    Event.cmdCall "d1"
      (cliCmd (pyStrip "kitsune-proxy://h/10.0.0.100/p/5778/--\n")) ∈ run okEnv ∧
    Event.cmdCall "d2"
      (cliCmd (pyStrip "kitsune-proxy://h/10.0.0.100/p/5778/--\n")) ∈ run okEnv :=
  proxy_addr_whole_stripped okEnv "0\r\n" "0\r\n" "1\r\n" 0 0 1
    "" "kitsune-proxy://h/10.0.0.100/p/5778/--\n" "ok" "ok"
    (by decide) (by decide) (by decide) (by decide) (by decide) (by decide)
    (by decide) (by decide) (by decide) (by decide)

/-- C4: any exception raised inside the test sequence is caught by the
single catch-all of `run()`: the trace is exactly the events performed
before the exception (all ordinary body steps, none repeated), followed
by the error print and by `net.stop()`. -/
theorem run_catchall ( env : Env) (e : PyErr) (evs : List Event)
    (h : tryBody env = (.exc e, evs)) :
    run env = Event.netStart :: evs ++ [Event.printExc e, Event.netStop] ∧
    (∀ ev ∈ evs, isBodyEvent ev = true) := by
  constructor
  · unfold run
    rw [h]
    rfl
  · have hb := allBody_tryBody env
    rw [h] at hb
    exact hb

/-- Witness for C4: under `badPingEnv` the first `int(...)` raises
`ValueError` after two events; the error is printed and the network is
still stopped. -/
theorem run_catchall_witness :
    run badPingEnv =
      Event.netStart ::
        [Event.info "192.168.1.100: ping -c1 10.0.0.100",
         Event.cmdCall "d1" "ping -c1 10.0.0.100 > /dev/null 2>&1; echo $?"] ++
        [Event.printExc .valueError, Event.netStop] ∧
    (∀ ev ∈ [Event.info "192.168.1.100: ping -c1 10.0.0.100",
             Event.cmdCall "d1" "ping -c1 10.0.0.100 > /dev/null 2>&1; echo $?"],
       isBodyEvent ev = true) :=
  run_catchall badPingEnv .valueError
    [Event.info "192.168.1.100: ping -c1 10.0.0.100",
     Event.cmdCall "d1" "ping -c1 10.0.0.100 > /dev/null 2>&1; echo $?"]
    (by decide)

/-- C6: the only synchronization with the background proxy server is the
single fixed `time.sleep(1)` sitting directly between the launch command
and the read of `proxy-output` (visible in the exact trace below), and no
run of the script ever performs more than one sleep event. -/
theorem single_fixed_sleep_sync (env : Env)
    (s1 s2 s3 : String) (n1 n2 n3 : Int)
    (launchOut catOut cliOut1 cliOut2 : String)
    (h1 : env "d1" "ping -c1 10.0.0.100 > /dev/null 2>&1; echo $?" = .ok s1)
    (hp1 : pyInt s1 = .ok n1)
    (h2 : env "d2" "ping -c1 10.0.0.100 > /dev/null 2>&1; echo $?" = .ok s2)
    (hp2 : pyInt s2 = .ok n2)
    (h3 : env "d1" "ping -c1 192.168.2.100 > /dev/null 2>&1; echo $?" = .ok s3)
    (hp3 : pyInt s3 = .ok n3)
    (h4 : env "h0" launchCmd = .ok launchOut)
    (h5 : env "h0" catCmd = .ok catOut)
    (h6 : env "d1" (cliCmd (pyStrip catOut)) = .ok cliOut1)
    (h7 : env "d2" (cliCmd (pyStrip catOut)) = .ok cliOut2) :
    run env =
      [Event.netStart,
       Event.info "192.168.1.100: ping -c1 10.0.0.100",
       Event.cmdCall "d1" "ping -c1 10.0.0.100 > /dev/null 2>&1; echo $?",
       Event.info ("GOT EXIT CODE: " ++ toString n1),
       Event.info "192.168.2.100: ping -c1 10.0.0.100",
       Event.cmdCall "d2" "ping -c1 10.0.0.100 > /dev/null 2>&1; echo $?",
       Event.info ("GOT EXIT CODE: " ++ toString n2),
       Event.info "192.168.1.100: ping -c1 192.168.2.100",
       Event.cmdCall "d1" "ping -c1 192.168.2.100 > /dev/null 2>&1; echo $?",
       Event.info ("GOT EXIT CODE: " ++ toString n3),
       Event.info "Starting Proxy Server",
       Event.cmdCall "h0" launchCmd,
       Event.sleep 1,
       Event.cmdCall "h0" catCmd,
       Event.info ("PROXY ADDR: " ++ pyStrip catOut),
       Event.info ("192.168.1.100: " ++ cliCmd (pyStrip catOut)),
       Event.cmdCall "d1" (cliCmd (pyStrip catOut)),
       Event.info cliOut1,
       Event.info ("192.168.2.100: " ++ cliCmd (pyStrip catOut)),
       Event.cmdCall "d2" (cliCmd (pyStrip catOut)),
       Event.info cliOut2,
       Event.netStop] ∧
    (∀ env2 : Env, sleepCount (run env2) ≤ 1) :=
  ⟨run_eval_ok env s1 s2 s3 n1 n2 n3 launchOut catOut cliOut1 cliOut2
    h1 hp1 h2 hp2 h3 hp3 h4 h5 h6 h7,
   fun env2 => sleepCount_run env2⟩

/-- Witness for C6 at `okEnv`. -/
theorem single_fixed_sleep_sync_witness :
    run okEnv =
      [Event.netStart,
       Event.info "192.168.1.100: ping -c1 10.0.0.100",
       Event.cmdCall "d1" "ping -c1 10.0.0.100 > /dev/null 2>&1; echo $?",
       Event.info ("GOT EXIT CODE: " ++ toString (0 : Int)),
       Event.info "192.168.2.100: ping -c1 10.0.0.100",
       Event.cmdCall "d2" "ping -c1 10.0.0.100 > /dev/null 2>&1; echo $?",
       Event.info ("GOT EXIT CODE: " ++ toString (0 : Int)),
       Event.info "192.168.1.100: ping -c1 192.168.2.100",
       Event.cmdCall "d1" "ping -c1 192.168.2.100 > /dev/null 2>&1; echo $?",
       Event.info ("GOT EXIT CODE: " ++ toString (1 : Int)),
       Event.info "Starting Proxy Server",
       Event.cmdCall "h0" launchCmd,
       Event.sleep 1,
       Event.cmdCall "h0" catCmd,
       Event.info ("PROXY ADDR: " ++
         pyStrip "kitsune-proxy://h/10.0.0.100/p/5778/--\n"),
       Event.info ("192.168.1.100: " ++
         cliCmd (pyStrip "kitsune-proxy://h/10.0.0.100/p/5778/--\n")),
       Event.cmdCall "d1"
         (cliCmd (pyStrip "kitsune-proxy://h/10.0.0.100/p/5778/--\n")),
       Event.info "ok",
       Event.info ("192.168.2.100: " ++
         cliCmd (pyStrip "kitsune-proxy://h/10.0.0.100/p/5778/--\n")),
       Event.cmdCall "d2"
         (cliCmd (pyStrip "kitsune-proxy://h/10.0.0.100/p/5778/--\n")),
       Event.info "ok",
       Event.netStop] ∧
    sleepCount (run okEnv) ≤ 1 := by
  have h := single_fixed_sleep_sync okEnv "0\r\n" "0\r\n" "1\r\n" 0 0 1
    "" "kitsune-proxy://h/10.0.0.100/p/5778/--\n" "ok" "ok"
    (by decide) (by decide) (by decide) (by decide) (by decide) (by decide)
    (by decide) (by decide) (by decide) (by decide)
  exact ⟨h.1, h.2 okEnv⟩

/-- C10: the launch of the proxy server is never verified: whatever text
the backgrounded `kitsune-p2p-proxy` command returns, the run proceeds
identically — two environments that differ only in the launch command's
output produce exactly the same trace. -/
theorem launch_result_unchecked (env env2 : Env) (s s2 : String)
    (h : env "h0" launchCmd = .ok s) (h2 : env2 "h0" launchCmd = .ok s2)
    (hagree : ∀ n c, ¬(n = "h0" ∧ c = launchCmd) → env n c = env2 n c) :
    run env = run env2 := by
  have e1 : ∀ c, env "d1" c = env2 "d1" c :=
    fun c => hagree "d1" c (fun hx => absurd hx.1 (by decide))
  have e2 : ∀ c, env "d2" c = env2 "d2" c :=
    fun c => hagree "d2" c (fun hx => absurd hx.1 (by decide))
  have e3 : env "h0" catCmd = env2 "h0" catCmd :=
    hagree "h0" catCmd (fun hx => absurd hx.2 (by decide))
  have hping : pingPhase env = pingPhase env2 := by
    simp only [pingPhase, exitCode, seqM, runCmd, bindM, emitM, pureM,
      theD1_name, theD2_name, e1, e2]
  have hproxy : proxyPhase env = proxyPhase env2 := by
    simp only [proxyPhase, execPrint, seqM, runCmd, bindM, emitM,
      theD1_name, theD2_name, h0Decl_name, h, h2, e1, e2, e3]
  unfold run tryBody seqM
  rw [hping, hproxy]

/-- Witness for C10: `okEnv` (silent launch) and `okEnvLaunchNoise`
(launch prints an error message) yield identical traces. -/
theorem launch_result_unchecked_witness :
    run okEnv = run okEnvLaunchNoise :=
  launch_result_unchecked okEnv okEnvLaunchNoise
    "" "sh: kitsune-p2p-proxy: not found"
    (by decide) (by decide)
    (fun n c hnc => (if_neg hnc).symm)

end Containernet
